import Mathlib

/-!
Shallow embedding of the traffic-monitor core:
`src/traffic_monitor/monitors/traffic_monitor.py` (TrafficMonitor),
`src/traffic_monitor/state_manager.py` (StateManager) and
`src/traffic_monitor/__init__.py` (MultiNotifier).

Usage values (GB, Python floats) are modelled as rationals; Python ints as
`Nat` in the main development (the documented configuration domain has
`interval > 0` and `total_limit > 0`) and as `Int` where the behaviour on
non-positive configuration values is itself at issue.  Notifier results are
an oracle `Nat → Bool` giving the return value of the n-th `notify` call of
a tick; the source discards these values, the embedding records them in a
`calls` log.
-/

namespace TrafficMonitor

/-- Persisted monitor state, the fields of `StateManager._create_default_state`
(state_manager.py lines 57-66).  The bookkeeping fields `version` and
`last_updated` are metadata never read by the monitor and are not modelled. -/
structure MonitorState where
  current_month : String
  notified_thresholds : List ℕ
  critical_notification_sent : Bool
  last_daily_report_date : Option String
deriving Repr, DecidableEq

/-- `StateManager._create_default_state` for a given current month. -/
def create_default_state (month : String) : MonitorState :=
  { current_month := month
  , notified_thresholds := []
  , critical_notification_sent := false
  , last_daily_report_date := none }

/-- `StateManager._validate_state` (lines 68-86): when the stored month differs
from the current calendar month, every modelled field is reset to its default
and the month is set to the current one; otherwise the record is unchanged
(the remaining source lines only fill in missing dictionary keys, which a
typed record cannot lack). -/
def validate_state (month : String) (s : MonitorState) : MonitorState :=
  if s.current_month ≠ month then create_default_state month else s

/-- `StateManager.add_notified_threshold` (lines 105-113): append the threshold
if absent, then sort ascending.  Python's `list.sort()` and insertion sort
produce the same sorted list over natural numbers. -/
def add_notified_threshold (s : MonitorState) (t : ℕ) : MonitorState :=
  if t ∈ s.notified_thresholds then s
  else { s with
    notified_thresholds := (s.notified_thresholds ++ [t]).insertionSort (· ≤ ·) }

/-- `StateManager.set_critical_notification_sent` (lines 119-123). -/
def set_critical_notification_sent (s : MonitorState) (b : Bool) : MonitorState :=
  { s with critical_notification_sent := b }

/-- `StateManager.set_last_daily_report_date` (lines 129-133). -/
def set_last_daily_report_date (s : MonitorState) (d : String) : MonitorState :=
  { s with last_daily_report_date := some d }

/-- The configuration fields `TrafficMonitor.__init__` copies out of
`ThresholdConfig` and `ReportConfig` and that `check_traffic` reads. -/
structure Config where
  total_limit : ℕ
  interval : ℕ
  critical_percentage : ℕ
  enable_daily_report : Bool
  daily_report_hour : ℕ
deriving Repr, DecidableEq

/-- `self.critical_threshold = (self.total_limit * self.critical_percentage) / 100`
(traffic_monitor.py line 70). -/
def critical_threshold (cfg : Config) : ℚ :=
  (cfg.total_limit * cfg.critical_percentage : ℚ) / 100

/-- The wall-clock inputs of one tick: `datetime.now().date().isoformat()` and
`datetime.now().hour` as read by `send_daily_report`. -/
structure Tick where
  today : String
  hour : ℕ
deriving Repr, DecidableEq

/-- The notification events a tick can emit, tagged with their payload. -/
inductive Event where
  | thresholdCrossed (threshold : ℕ)
  | criticalReached (usage : ℚ)
  | dailyReport (date : String)
deriving Repr, DecidableEq

/-- The threshold payload of an event, if it is a `thresholdCrossed`. -/
def threshold_of : Event → Option ℕ
  | .thresholdCrossed t => some t
  | _ => none

/-- Whether an event is a `criticalReached`. -/
def is_critical_event : Event → Bool
  | .criticalReached _ => true
  | _ => false

/-- Whether an event is a `dailyReport`. -/
def is_daily_event : Event → Bool
  | .dailyReport _ => true
  | _ => false

/-- Number of `thresholdCrossed` events in a list. -/
def threshold_count (events : List Event) : ℕ :=
  (events.filterMap threshold_of).length

/-- Number of `criticalReached` events in a list. -/
def critical_count (events : List Event) : ℕ :=
  (events.filter is_critical_event).length

/-- Number of `dailyReport` events in a list. -/
def daily_count (events : List Event) : ℕ :=
  (events.filter is_daily_event).length

/-- The candidate threshold marks `i * interval` for
`i in range(1, int(total_limit / interval) + 1)`
(traffic_monitor.py line 98, with positive integer configuration, where
`int(total_limit / interval)` is floor division). -/
def threshold_marks (total_limit interval : ℕ) : List ℕ :=
  (List.range (total_limit / interval)).map (fun i => (i + 1) * interval)

/-- `TrafficMonitor._should_notify` (lines 87-102): the `for` loop with early
`return` is the first candidate mark that is already reached but not yet
notified; `None` when there is none. -/
def should_notify (cfg : Config) (notified : List ℕ) (usage : ℚ) : Option ℕ :=
  (threshold_marks cfg.total_limit cfg.interval).find?
    (fun t => decide ((t : ℚ) ≤ usage) && decide (t ∉ notified))

/-- `TrafficMonitor._is_critical` (lines 104-111). -/
def is_critical (cfg : Config) (usage : ℚ) : Bool :=
  decide (critical_threshold cfg ≤ usage)

/-- Specification-side characterisation (spec §8, first testable property):
the candidate marks that are `≤ usage` and not in the already-notified set,
in the candidate order.  Compared against the loop of `check_traffic`. -/
def due_marks (cfg : Config) (notified : List ℕ) (usage : ℚ) : List ℕ :=
  (threshold_marks cfg.total_limit cfg.interval).filter
    (fun t => decide ((t : ℚ) ≤ usage) && decide (t ∉ notified))

/-- Result of the threshold `while` loop of `check_traffic`: emitted threshold
marks in emission order, final state, logged `notify` results, and whether the
loop reached its `break` (false means the modelling fuel ran out first, i.e. an
interrupted run). -/
structure LoopResult where
  emitted : List ℕ
  state : MonitorState
  calls : List Bool
  completed : Bool
deriving Repr

/-- The `while True` threshold loop of `TrafficMonitor.check_traffic`
(lines 364-378): ask `_should_notify`; on a mark, send one notification (result
discarded by the source, logged here) and record the mark via
`add_notified_threshold`, then loop.  `fuel` bounds the modelled iterations;
the loop is proved to reach `break` whenever `fuel > total_limit / interval`. -/
def threshold_loop (cfg : Config) (usage : ℚ) (oracle : ℕ → Bool) :
    ℕ → ℕ → MonitorState → LoopResult
  | 0, _, s => ⟨[], s, [], false⟩
  | fuel + 1, idx, s =>
    match should_notify cfg s.notified_thresholds usage with
    | none => ⟨[], s, [], true⟩
    | some t =>
      let r := oracle idx
      let rest := threshold_loop cfg usage oracle fuel (idx + 1) (add_notified_threshold s t)
      ⟨t :: rest.emitted, rest.state, r :: rest.calls, rest.completed⟩

/-- Result of `send_daily_report`: emitted events, state, logged `notify`
results and the next oracle index. -/
structure DailyResult where
  events : List Event
  state : MonitorState
  calls : List Bool
  next_idx : ℕ

/-- `TrafficMonitor.send_daily_report` (lines 310-352): skip when disabled;
skip when today's report was already sent; when the current hour equals the
configured report hour, send the report (result discarded) and record today's
date.  Report text generation is pure formatting, modelled separately by
`report_numbers`. -/
def send_daily_report (cfg : Config) (tick : Tick) (oracle : ℕ → Bool) (idx : ℕ)
    (s : MonitorState) : DailyResult :=
  if cfg.enable_daily_report = false then ⟨[], s, [], idx⟩
  else if s.last_daily_report_date = some tick.today then ⟨[], s, [], idx⟩
  else if tick.hour = cfg.daily_report_hour then
    let r := oracle idx
    ⟨[.dailyReport tick.today], set_last_daily_report_date s tick.today, [r], idx + 1⟩
  else ⟨[], s, [], idx⟩

/-- Result of one `check_traffic` tick. -/
structure TickResult where
  events : List Event
  state : MonitorState
  calls : List Bool
  action_invoked : Bool

/-- `TrafficMonitor.check_traffic` (lines 354-401) for one tick: first the
daily-report check, then the threshold `while` loop, then the critical check
(`_is_critical` and the persisted flag); on a critical crossing the
notification result is discarded, the flag is set, and the shutdown action is
invoked.  The loop fuel `total_limit / interval + 1` is proved sufficient for
the `break` to be reached. -/
def check_traffic (cfg : Config) (tick : Tick) (usage : ℚ) (oracle : ℕ → Bool)
    (s : MonitorState) : TickResult :=
  let daily := send_daily_report cfg tick oracle 0 s
  let loopR := threshold_loop cfg usage oracle (cfg.total_limit / cfg.interval + 1)
    daily.next_idx daily.state
  let s2 := loopR.state
  if is_critical cfg usage && !s2.critical_notification_sent then
    let r := oracle (daily.next_idx + loopR.calls.length)
    ⟨daily.events ++ loopR.emitted.map Event.thresholdCrossed ++ [.criticalReached usage],
     set_critical_notification_sent s2 true,
     daily.calls ++ loopR.calls ++ [r], true⟩
  else
    ⟨daily.events ++ loopR.emitted.map Event.thresholdCrossed, s2,
     daily.calls ++ loopR.calls, false⟩

/-- A sequence of ticks of the monitoring loop `TrafficMonitor.run`
(lines 417-419), each with its wall-clock inputs, provider sample and notifier
oracle; collects all emitted events and the final state. -/
def run_ticks (cfg : Config) : List (Tick × ℚ × (ℕ → Bool)) → MonitorState →
    List Event × MonitorState
  | [], s => ([], s)
  | (t, u, o) :: rest, s =>
    let r := check_traffic cfg t u o s
    let rs := run_ticks cfg rest r.state
    (r.events ++ rs.1, rs.2)

/-- The usage statistics computed by `TrafficMonitor._get_daily_report`
(lines 217-233) and `_get_status_summary` (lines 124-150): percentage of the
limit used, daily average over the day-of-month, and the linear month-end
projection.  Pure numbers rendered into the report text. -/
structure ReportNumbers where
  percentage : ℚ
  daily_average : ℚ
  estimated_end_of_month : ℚ
deriving Repr, DecidableEq

/-- The report-number computations, translated from
`_get_daily_report`: `daily_average = current_usage / now.day`,
`estimated_end_of_month = current_usage + daily_average * remaining_days`,
`percentage = (current_usage / total_limit) * 100`. -/
def report_numbers (current_usage total_limit : ℚ) (day remaining_days : ℕ) :
    ReportNumbers :=
  let daily_average := current_usage / (day : ℚ)
  { percentage := current_usage / total_limit * 100
  , daily_average := daily_average
  , estimated_end_of_month := current_usage + daily_average * (remaining_days : ℚ) }

/-- Behaviour of one notifier collaborator on one call: it returns a boolean,
or raises an exception. -/
inductive NotifyOutcome where
  | ok (result : Bool)
  | exn
deriving Repr, DecidableEq

/-- The boolean appended to `results` for one notifier inside
`MultiNotifier.notify`: its return value, or `False` from the `except` branch
when it raised. -/
def outcome_result : NotifyOutcome → Bool
  | .ok b => b
  | .exn => false

/-- The `for` loop of `MultiNotifier.notify` (traffic_monitor/__init__.py
lines 48-55): one `results` entry per notifier, in insertion order; an
exception is caught and recorded as `False`, never propagated. -/
def collect_results : List NotifyOutcome → List Bool
  | [] => []
  | n :: rest => outcome_result n :: collect_results rest

/-- `MultiNotifier.notify` (lines 32-58): `False` with no calls when no
notifier is configured, otherwise `any(results)` over all notifiers. -/
def multi_notify (notifiers : List NotifyOutcome) : Bool × List Bool :=
  if notifiers.isEmpty then (false, [])
  else
    let results := collect_results notifiers
    (results.any id, results)

/-- `ThresholdConfig` (config/settings.py lines 42-47) over Python ints, with
no sign restriction, for the analysis of non-positive configurations. -/
structure ThresholdConfigInt where
  total_limit : ℤ
  interval : ℤ
  critical_percentage : ℤ
deriving Repr, DecidableEq

/-- The fields `TrafficMonitor.__init__` derives from its threshold
configuration. -/
structure TrafficMonitorFields where
  total_limit : ℤ
  interval : ℤ
  critical_percentage : ℤ
  critical_threshold : ℚ
deriving Repr, DecidableEq

/-- `TrafficMonitor.__init__` (lines 36-85) restricted to its configuration
handling: it copies the threshold fields and computes `critical_threshold`.
The source contains no validation and no error path, so the model is a total
function defined for every configuration, including non-positive ones. -/
def traffic_monitor_init (cfg : ThresholdConfigInt) : TrafficMonitorFields :=
  { total_limit := cfg.total_limit
  , interval := cfg.interval
  , critical_percentage := cfg.critical_percentage
  , critical_threshold := (cfg.total_limit * cfg.critical_percentage : ℚ) / 100 }

/-- The Python exception `_should_notify` can raise. -/
inductive PyError where
  | zeroDivisionError
deriving Repr, DecidableEq

/-- `TrafficMonitor._should_notify` over unrestricted Python ints:
`total_limit / interval` raises `ZeroDivisionError` when `interval == 0`;
otherwise `int(...)` truncates the quotient toward zero (`Int.div`), and
`range(1, n + 1)` is empty whenever `n <= 0`, so a negative interval or
negative limit silently yields no candidate marks. -/
def should_notify_int (total_limit interval : ℤ) (notified : List ℤ) (usage : ℚ) :
    Except PyError (Option ℤ) :=
  if interval = 0 then .error .zeroDivisionError
  else
    .ok ((((List.range (Int.tdiv total_limit interval).toNat)).map
        (fun i => ((i : ℤ) + 1) * interval)).find?
      (fun t => decide ((t : ℚ) ≤ usage) && decide (t ∉ notified)))

/-! ### Helper lemmas -/

theorem find?_eq_head_filter (p : ℕ → Bool) (l : List ℕ) :
    l.find? p = (l.filter p).head? := by
  induction l with
  | nil => rfl
  | cons a t ih =>
    by_cases h : p a
    · rw [List.find?_cons_of_pos _ h, List.filter_cons_of_pos h]
      rfl
    · rw [List.find?_cons_of_neg _ (by simpa using h),
        List.filter_cons_of_neg (by simpa using h), ih]

theorem length_threshold_marks (tl iv : ℕ) :
    (threshold_marks tl iv).length = tl / iv := by
  simp [threshold_marks]

theorem threshold_marks_nodup (tl iv : ℕ) : (threshold_marks tl iv).Nodup := by
  cases iv with
  | zero => simp [threshold_marks, Nat.div_zero]
  | succ k =>
    refine List.Nodup.map ?_ (List.nodup_range _)
    intro a b hab
    have := Nat.eq_of_mul_eq_mul_right (Nat.succ_pos k) hab
    omega

theorem threshold_marks_pairwise (tl iv : ℕ) :
    (threshold_marks tl iv).Pairwise (· < ·) := by
  cases iv with
  | zero => simp [threshold_marks, Nat.div_zero]
  | succ k =>
    refine List.Pairwise.map _ ?_ (List.pairwise_lt_range _)
    intro a b hab
    exact (Nat.mul_lt_mul_right (Nat.succ_pos k)).mpr (by omega)

theorem mem_add_notified (s : MonitorState) (t x : ℕ) :
    x ∈ (add_notified_threshold s t).notified_thresholds ↔
      x ∈ s.notified_thresholds ∨ x = t := by
  unfold add_notified_threshold
  by_cases h : t ∈ s.notified_thresholds
  · simp only [if_pos h]
    constructor
    · exact fun hx => Or.inl hx
    · rintro (hx | rfl)
      · exact hx
      · exact h
  · simp only [if_neg h, List.mem_insertionSort, List.mem_append,
      List.mem_singleton]

theorem add_notified_month (s : MonitorState) (t : ℕ) :
    (add_notified_threshold s t).current_month = s.current_month := by
  unfold add_notified_threshold
  by_cases h : t ∈ s.notified_thresholds <;> simp [h]

theorem add_notified_critical (s : MonitorState) (t : ℕ) :
    (add_notified_threshold s t).critical_notification_sent =
      s.critical_notification_sent := by
  unfold add_notified_threshold
  by_cases h : t ∈ s.notified_thresholds <;> simp [h]

theorem add_notified_last (s : MonitorState) (t : ℕ) :
    (add_notified_threshold s t).last_daily_report_date =
      s.last_daily_report_date := by
  unfold add_notified_threshold
  by_cases h : t ∈ s.notified_thresholds <;> simp [h]

theorem should_notify_eq_head (cfg : Config) (n : List ℕ) (u : ℚ) :
    should_notify cfg n u = (due_marks cfg n u).head? := by
  unfold should_notify due_marks
  exact find?_eq_head_filter _ _

theorem due_marks_sublist (cfg : Config) (n : List ℕ) (u : ℚ) :
    (due_marks cfg n u).Sublist (threshold_marks cfg.total_limit cfg.interval) :=
  List.filter_sublist _

theorem due_marks_nodup (cfg : Config) (n : List ℕ) (u : ℚ) :
    (due_marks cfg n u).Nodup :=
  (threshold_marks_nodup _ _).sublist (due_marks_sublist cfg n u)

theorem due_marks_pairwise (cfg : Config) (n : List ℕ) (u : ℚ) :
    (due_marks cfg n u).Pairwise (· < ·) :=
  (threshold_marks_pairwise _ _).sublist (due_marks_sublist cfg n u)

theorem due_marks_length_le (cfg : Config) (n : List ℕ) (u : ℚ) :
    (due_marks cfg n u).length ≤ cfg.total_limit / cfg.interval := by
  calc (due_marks cfg n u).length
      ≤ (threshold_marks cfg.total_limit cfg.interval).length :=
        (due_marks_sublist cfg n u).length_le
    _ = cfg.total_limit / cfg.interval := length_threshold_marks _ _

theorem mem_due_marks (cfg : Config) (n : List ℕ) (u : ℚ) (x : ℕ) :
    x ∈ due_marks cfg n u ↔
      x ∈ threshold_marks cfg.total_limit cfg.interval ∧ (x : ℚ) ≤ u ∧ x ∉ n := by
  simp [due_marks, List.mem_filter]

theorem due_marks_after_add (cfg : Config) (u : ℚ) (s : MonitorState) (t : ℕ) :
    due_marks cfg (add_notified_threshold s t).notified_thresholds u =
      (due_marks cfg s.notified_thresholds u).filter (fun x => decide (x ≠ t)) := by
  unfold due_marks
  rw [List.filter_filter]
  refine List.filter_congr ?_
  intro x _
  by_cases hxt : x = t
  · subst hxt
    simp [mem_add_notified]
  · by_cases hxn : x ∈ s.notified_thresholds <;>
      simp [mem_add_notified, hxt, hxn]

theorem threshold_loop_spec (cfg : Config) (u : ℚ) (o : ℕ → Bool) :
    ∀ (fuel idx : ℕ) (s : MonitorState),
      (due_marks cfg s.notified_thresholds u).length < fuel →
      (threshold_loop cfg u o fuel idx s).emitted =
          due_marks cfg s.notified_thresholds u ∧
      (threshold_loop cfg u o fuel idx s).completed = true ∧
      ∀ x, x ∈ (threshold_loop cfg u o fuel idx s).state.notified_thresholds ↔
        x ∈ s.notified_thresholds ∨ x ∈ due_marks cfg s.notified_thresholds u := by
  intro fuel
  induction fuel with
  | zero => intro idx s h; omega
  | succ fuel ih =>
    intro idx s hlen
    cases hdue : due_marks cfg s.notified_thresholds u with
    | nil =>
      have hfind : should_notify cfg s.notified_thresholds u = none := by
        rw [should_notify_eq_head, hdue]; rfl
      simp [threshold_loop, hfind, hdue]
    | cons t rest =>
      have hfind : should_notify cfg s.notified_thresholds u = some t := by
        rw [should_notify_eq_head, hdue]; rfl
      have hnd : (t :: rest).Nodup := hdue ▸ due_marks_nodup cfg _ u
      have htr : t ∉ rest := (List.nodup_cons.mp hnd).1
      have htail : due_marks cfg (add_notified_threshold s t).notified_thresholds u
          = rest := by
        rw [due_marks_after_add cfg u s t, hdue,
          List.filter_cons_of_neg (by simp)]
        refine List.filter_eq_self.mpr ?_
        intro x hx
        simpa using fun h : x = t => htr (h ▸ hx)
      have hlen' : (due_marks cfg
          (add_notified_threshold s t).notified_thresholds u).length < fuel := by
        rw [htail]
        have : (t :: rest).length < fuel + 1 := hdue ▸ hlen
        simpa using this
      obtain ⟨h1, h2, h3⟩ := ih (idx + 1) (add_notified_threshold s t) hlen'
      refine ⟨?_, ?_, ?_⟩
      · simp only [threshold_loop, hfind]
        rw [h1, htail]
      · simp only [threshold_loop, hfind]
        exact h2
      · intro x
        simp only [threshold_loop, hfind]
        rw [h3 x, htail, mem_add_notified]
        constructor
        · rintro ((hx | rfl) | hx)
          · exact Or.inl hx
          · exact Or.inr (List.mem_cons_self _ _)
          · exact Or.inr (List.mem_cons_of_mem _ hx)
        · rintro (hx | hx)
          · exact Or.inl (Or.inl hx)
          · rcases List.mem_cons.mp hx with rfl | hx
            · exact Or.inl (Or.inr rfl)
            · exact Or.inr hx

theorem threshold_loop_month (cfg : Config) (u : ℚ) (o : ℕ → Bool) :
    ∀ (fuel idx : ℕ) (s : MonitorState),
      (threshold_loop cfg u o fuel idx s).state.current_month = s.current_month := by
  intro fuel
  induction fuel with
  | zero => intro idx s; rfl
  | succ fuel ih =>
    intro idx s
    cases hfind : should_notify cfg s.notified_thresholds u with
    | none => simp [threshold_loop, hfind]
    | some t =>
      simp only [threshold_loop, hfind]
      rw [ih, add_notified_month]

theorem threshold_loop_critical (cfg : Config) (u : ℚ) (o : ℕ → Bool) :
    ∀ (fuel idx : ℕ) (s : MonitorState),
      (threshold_loop cfg u o fuel idx s).state.critical_notification_sent =
        s.critical_notification_sent := by
  intro fuel
  induction fuel with
  | zero => intro idx s; rfl
  | succ fuel ih =>
    intro idx s
    cases hfind : should_notify cfg s.notified_thresholds u with
    | none => simp [threshold_loop, hfind]
    | some t =>
      simp only [threshold_loop, hfind]
      rw [ih, add_notified_critical]

theorem threshold_loop_last (cfg : Config) (u : ℚ) (o : ℕ → Bool) :
    ∀ (fuel idx : ℕ) (s : MonitorState),
      (threshold_loop cfg u o fuel idx s).state.last_daily_report_date =
        s.last_daily_report_date := by
  intro fuel
  induction fuel with
  | zero => intro idx s; rfl
  | succ fuel ih =>
    intro idx s
    cases hfind : should_notify cfg s.notified_thresholds u with
    | none => simp [threshold_loop, hfind]
    | some t =>
      simp only [threshold_loop, hfind]
      rw [ih, add_notified_last]

theorem threshold_loop_notified_mono (cfg : Config) (u : ℚ) (o : ℕ → Bool) :
    ∀ (fuel idx : ℕ) (s : MonitorState) (x : ℕ),
      x ∈ s.notified_thresholds →
      x ∈ (threshold_loop cfg u o fuel idx s).state.notified_thresholds := by
  intro fuel
  induction fuel with
  | zero => intro idx s x hx; exact hx
  | succ fuel ih =>
    intro idx s x hx
    cases hfind : should_notify cfg s.notified_thresholds u with
    | none => simpa [threshold_loop, hfind] using hx
    | some t =>
      simp only [threshold_loop, hfind]
      exact ih _ _ x ((mem_add_notified s t x).mpr (Or.inl hx))

theorem threshold_loop_emitted_recorded (cfg : Config) (u : ℚ) (o : ℕ → Bool) :
    ∀ (fuel idx : ℕ) (s : MonitorState) (x : ℕ),
      x ∈ (threshold_loop cfg u o fuel idx s).emitted →
      x ∈ (threshold_loop cfg u o fuel idx s).state.notified_thresholds := by
  intro fuel
  induction fuel with
  | zero => intro idx s x hx; simp [threshold_loop] at hx
  | succ fuel ih =>
    intro idx s x hx
    cases hfind : should_notify cfg s.notified_thresholds u with
    | none => simp [threshold_loop, hfind] at hx
    | some t =>
      simp only [threshold_loop, hfind] at hx ⊢
      rcases List.mem_cons.mp hx with rfl | hx
      · exact threshold_loop_notified_mono cfg u o _ _ _ x
          ((mem_add_notified s x x).mpr (Or.inr rfl))
      · exact ih _ _ x hx

theorem threshold_loop_oracle (cfg : Config) (u : ℚ) (o₁ o₂ : ℕ → Bool) :
    ∀ (fuel idx₁ idx₂ : ℕ) (s : MonitorState),
      (threshold_loop cfg u o₁ fuel idx₁ s).emitted =
          (threshold_loop cfg u o₂ fuel idx₂ s).emitted ∧
      (threshold_loop cfg u o₁ fuel idx₁ s).state =
          (threshold_loop cfg u o₂ fuel idx₂ s).state ∧
      (threshold_loop cfg u o₁ fuel idx₁ s).completed =
          (threshold_loop cfg u o₂ fuel idx₂ s).completed := by
  intro fuel
  induction fuel with
  | zero => intro idx₁ idx₂ s; exact ⟨rfl, rfl, rfl⟩
  | succ fuel ih =>
    intro idx₁ idx₂ s
    cases hfind : should_notify cfg s.notified_thresholds u with
    | none => simp [threshold_loop, hfind]
    | some t =>
      obtain ⟨h1, h2, h3⟩ := ih (idx₁ + 1) (idx₂ + 1) (add_notified_threshold s t)
      simp only [threshold_loop, hfind]
      exact ⟨by rw [h1], h2, h3⟩

theorem send_daily_events (cfg : Config) (tick : Tick) (o : ℕ → Bool) (idx : ℕ)
    (s : MonitorState) :
    (send_daily_report cfg tick o idx s).events =
      if cfg.enable_daily_report = true ∧
          s.last_daily_report_date ≠ some tick.today ∧
          tick.hour = cfg.daily_report_hour
      then [Event.dailyReport tick.today] else [] := by
  cases h1 : cfg.enable_daily_report with
  | false => simp [send_daily_report, h1]
  | true =>
    by_cases h2 : s.last_daily_report_date = some tick.today
    · simp [send_daily_report, h1, h2]
    · by_cases h3 : tick.hour = cfg.daily_report_hour
      · simp [send_daily_report, h1, h2, h3]
      · simp [send_daily_report, h1, h2, h3]

theorem send_daily_state (cfg : Config) (tick : Tick) (o : ℕ → Bool) (idx : ℕ)
    (s : MonitorState) :
    (send_daily_report cfg tick o idx s).state =
      if cfg.enable_daily_report = true ∧
          s.last_daily_report_date ≠ some tick.today ∧
          tick.hour = cfg.daily_report_hour
      then set_last_daily_report_date s tick.today else s := by
  cases h1 : cfg.enable_daily_report with
  | false => simp [send_daily_report, h1]
  | true =>
    by_cases h2 : s.last_daily_report_date = some tick.today
    · simp [send_daily_report, h1, h2]
    · by_cases h3 : tick.hour = cfg.daily_report_hour
      · simp [send_daily_report, h1, h2, h3]
      · simp [send_daily_report, h1, h2, h3]

theorem send_daily_notified (cfg : Config) (tick : Tick) (o : ℕ → Bool) (idx : ℕ)
    (s : MonitorState) :
    (send_daily_report cfg tick o idx s).state.notified_thresholds =
      s.notified_thresholds := by
  rw [send_daily_state]
  split <;> rfl

theorem send_daily_critical (cfg : Config) (tick : Tick) (o : ℕ → Bool) (idx : ℕ)
    (s : MonitorState) :
    (send_daily_report cfg tick o idx s).state.critical_notification_sent =
      s.critical_notification_sent := by
  rw [send_daily_state]
  split <;> rfl

theorem send_daily_month (cfg : Config) (tick : Tick) (o : ℕ → Bool) (idx : ℕ)
    (s : MonitorState) :
    (send_daily_report cfg tick o idx s).state.current_month = s.current_month := by
  rw [send_daily_state]
  split <;> rfl

theorem send_daily_oracle (cfg : Config) (tick : Tick) (o₁ o₂ : ℕ → Bool) (idx : ℕ)
    (s : MonitorState) :
    (send_daily_report cfg tick o₁ idx s).events =
        (send_daily_report cfg tick o₂ idx s).events ∧
    (send_daily_report cfg tick o₁ idx s).state =
        (send_daily_report cfg tick o₂ idx s).state ∧
    (send_daily_report cfg tick o₁ idx s).next_idx =
        (send_daily_report cfg tick o₂ idx s).next_idx := by
  unfold send_daily_report
  split
  · exact ⟨rfl, rfl, rfl⟩
  · split
    · exact ⟨rfl, rfl, rfl⟩
    · split
      · exact ⟨rfl, rfl, rfl⟩
      · exact ⟨rfl, rfl, rfl⟩

/-! ### check_traffic decomposition -/

theorem check_traffic_events (cfg : Config) (tick : Tick) (u : ℚ) (o : ℕ → Bool)
    (s : MonitorState) :
    (check_traffic cfg tick u o s).events =
      (send_daily_report cfg tick o 0 s).events ++
      (threshold_loop cfg u o (cfg.total_limit / cfg.interval + 1)
          (send_daily_report cfg tick o 0 s).next_idx
          (send_daily_report cfg tick o 0 s).state).emitted.map Event.thresholdCrossed ++
      (if is_critical cfg u && !s.critical_notification_sent
       then [Event.criticalReached u] else []) := by
  unfold check_traffic
  have hc : (threshold_loop cfg u o (cfg.total_limit / cfg.interval + 1)
      (send_daily_report cfg tick o 0 s).next_idx
      (send_daily_report cfg tick o 0 s).state).state.critical_notification_sent
      = s.critical_notification_sent := by
    rw [threshold_loop_critical, send_daily_critical]
  simp only [hc]
  split <;> simp

theorem check_traffic_crit_flag (cfg : Config) (tick : Tick) (u : ℚ) (o : ℕ → Bool)
    (s : MonitorState) :
    (check_traffic cfg tick u o s).state.critical_notification_sent =
      (s.critical_notification_sent || is_critical cfg u) := by
  have hc : (threshold_loop cfg u o (cfg.total_limit / cfg.interval + 1)
      (send_daily_report cfg tick o 0 s).next_idx
      (send_daily_report cfg tick o 0 s).state).state.critical_notification_sent
      = s.critical_notification_sent := by
    rw [threshold_loop_critical, send_daily_critical]
  cases hs : s.critical_notification_sent <;> cases hcrit : is_critical cfg u <;>
    simp [check_traffic, hc, hs, hcrit, set_critical_notification_sent]

theorem check_traffic_month (cfg : Config) (tick : Tick) (u : ℚ) (o : ℕ → Bool)
    (s : MonitorState) :
    (check_traffic cfg tick u o s).state.current_month = s.current_month := by
  simp only [check_traffic]
  split <;> simp [set_critical_notification_sent, threshold_loop_month,
    send_daily_month]

theorem check_traffic_last (cfg : Config) (tick : Tick) (u : ℚ) (o : ℕ → Bool)
    (s : MonitorState) :
    (check_traffic cfg tick u o s).state.last_daily_report_date =
      (send_daily_report cfg tick o 0 s).state.last_daily_report_date := by
  simp only [check_traffic]
  split <;> simp [set_critical_notification_sent, threshold_loop_last]

theorem check_traffic_notified_iff (cfg : Config) (tick : Tick) (u : ℚ)
    (o : ℕ → Bool) (s : MonitorState) (x : ℕ) :
    x ∈ (check_traffic cfg tick u o s).state.notified_thresholds ↔
      x ∈ s.notified_thresholds ∨ x ∈ due_marks cfg s.notified_thresholds u := by
  have hfuel : (due_marks cfg
      (send_daily_report cfg tick o 0 s).state.notified_thresholds u).length <
      cfg.total_limit / cfg.interval + 1 :=
    Nat.lt_succ_of_le (due_marks_length_le _ _ _)
  have hloop := (threshold_loop_spec cfg u o (cfg.total_limit / cfg.interval + 1)
      (send_daily_report cfg tick o 0 s).next_idx
      (send_daily_report cfg tick o 0 s).state hfuel).2.2 x
  rw [send_daily_notified] at hloop
  simp only [check_traffic]
  split <;> exact hloop

theorem check_traffic_threshold_events (cfg : Config) (tick : Tick) (u : ℚ)
    (o : ℕ → Bool) (s : MonitorState) :
    (check_traffic cfg tick u o s).events.filterMap threshold_of =
      due_marks cfg s.notified_thresholds u := by
  have hfuel : (due_marks cfg
      (send_daily_report cfg tick o 0 s).state.notified_thresholds u).length <
      cfg.total_limit / cfg.interval + 1 :=
    Nat.lt_succ_of_le (due_marks_length_le _ _ _)
  have hloop := (threshold_loop_spec cfg u o (cfg.total_limit / cfg.interval + 1)
      (send_daily_report cfg tick o 0 s).next_idx
      (send_daily_report cfg tick o 0 s).state hfuel).1
  rw [send_daily_notified] at hloop
  rw [check_traffic_events, List.filterMap_append, List.filterMap_append]
  rw [send_daily_events]
  have h1 : ∀ l : List ℕ,
      (l.map Event.thresholdCrossed).filterMap threshold_of = l := by
    intro l
    induction l with
    | nil => rfl
    | cons a t ih => simp [threshold_of, ih]
  rw [h1, hloop]
  have h2 : (if cfg.enable_daily_report = true ∧
      s.last_daily_report_date ≠ some tick.today ∧
      tick.hour = cfg.daily_report_hour
      then [Event.dailyReport tick.today] else []).filterMap threshold_of = [] := by
    split <;> rfl
  have h3 : (if is_critical cfg u && !s.critical_notification_sent
      then [Event.criticalReached u] else []).filterMap threshold_of = [] := by
    split <;> rfl
  rw [h2, h3]
  simp

theorem critical_count_append (a b : List Event) :
    critical_count (a ++ b) = critical_count a + critical_count b := by
  simp [critical_count]

theorem daily_count_append (a b : List Event) :
    daily_count (a ++ b) = daily_count a + daily_count b := by
  simp [daily_count]

theorem critical_count_map_threshold (l : List ℕ) :
    critical_count (l.map Event.thresholdCrossed) = 0 := by
  induction l with
  | nil => rfl
  | cons a t ih => simp [critical_count, is_critical_event]

theorem daily_count_map_threshold (l : List ℕ) :
    daily_count (l.map Event.thresholdCrossed) = 0 := by
  induction l with
  | nil => rfl
  | cons a t ih => simp [daily_count, is_daily_event]

theorem critical_count_send_daily (cfg : Config) (tick : Tick) (o : ℕ → Bool)
    (idx : ℕ) (s : MonitorState) :
    critical_count (send_daily_report cfg tick o idx s).events = 0 := by
  rw [send_daily_events]
  split <;> rfl

theorem daily_count_send_daily (cfg : Config) (tick : Tick) (o : ℕ → Bool)
    (idx : ℕ) (s : MonitorState) :
    daily_count (send_daily_report cfg tick o idx s).events =
      if cfg.enable_daily_report = true ∧
          s.last_daily_report_date ≠ some tick.today ∧
          tick.hour = cfg.daily_report_hour
      then 1 else 0 := by
  rw [send_daily_events]
  split <;> rfl

theorem check_traffic_critical_count (cfg : Config) (tick : Tick) (u : ℚ)
    (o : ℕ → Bool) (s : MonitorState) :
    critical_count (check_traffic cfg tick u o s).events =
      if (is_critical cfg u && !s.critical_notification_sent) = true
      then 1 else 0 := by
  rw [check_traffic_events, critical_count_append, critical_count_append,
    critical_count_send_daily, critical_count_map_threshold]
  split <;> rfl

theorem check_traffic_daily_filter (cfg : Config) (tick : Tick) (u : ℚ)
    (o : ℕ → Bool) (s : MonitorState) :
    (check_traffic cfg tick u o s).events.filter is_daily_event =
      (send_daily_report cfg tick o 0 s).events := by
  rw [check_traffic_events, List.filter_append, List.filter_append]
  have h1 : ∀ l : List ℕ,
      (l.map Event.thresholdCrossed).filter is_daily_event = [] := by
    intro l
    induction l with
    | nil => rfl
    | cons a t ih => simp [is_daily_event]
  have h2 : (if is_critical cfg u && !s.critical_notification_sent
      then [Event.criticalReached u] else []).filter is_daily_event = [] := by
    split <;> rfl
  have h3 : (send_daily_report cfg tick o 0 s).events.filter is_daily_event =
      (send_daily_report cfg tick o 0 s).events := by
    rw [send_daily_events]
    split <;> rfl
  rw [h1, h2, h3]
  simp

theorem check_traffic_daily_count (cfg : Config) (tick : Tick) (u : ℚ)
    (o : ℕ → Bool) (s : MonitorState) :
    daily_count (check_traffic cfg tick u o s).events =
      if cfg.enable_daily_report = true ∧
          s.last_daily_report_date ≠ some tick.today ∧
          tick.hour = cfg.daily_report_hour
      then 1 else 0 := by
  have : daily_count (check_traffic cfg tick u o s).events =
      daily_count (send_daily_report cfg tick o 0 s).events := by
    unfold daily_count
    rw [check_traffic_daily_filter]
    congr 1
    rw [send_daily_events]
    split <;> rfl
  rw [this, daily_count_send_daily]

theorem check_traffic_state (cfg : Config) (tick : Tick) (u : ℚ) (o : ℕ → Bool)
    (s : MonitorState) :
    (check_traffic cfg tick u o s).state =
      if is_critical cfg u && !s.critical_notification_sent
      then set_critical_notification_sent
          (threshold_loop cfg u o (cfg.total_limit / cfg.interval + 1)
            (send_daily_report cfg tick o 0 s).next_idx
            (send_daily_report cfg tick o 0 s).state).state true
      else (threshold_loop cfg u o (cfg.total_limit / cfg.interval + 1)
            (send_daily_report cfg tick o 0 s).next_idx
            (send_daily_report cfg tick o 0 s).state).state := by
  have hc : (threshold_loop cfg u o (cfg.total_limit / cfg.interval + 1)
      (send_daily_report cfg tick o 0 s).next_idx
      (send_daily_report cfg tick o 0 s).state).state.critical_notification_sent
      = s.critical_notification_sent := by
    rw [threshold_loop_critical, send_daily_critical]
  simp only [check_traffic, hc]
  split <;> rfl

theorem check_traffic_oracle (cfg : Config) (tick : Tick) (u : ℚ)
    (o₁ o₂ : ℕ → Bool) (s : MonitorState) :
    (check_traffic cfg tick u o₁ s).events = (check_traffic cfg tick u o₂ s).events ∧
    (check_traffic cfg tick u o₁ s).state = (check_traffic cfg tick u o₂ s).state := by
  obtain ⟨hde, hds, hdi⟩ := send_daily_oracle cfg tick o₁ o₂ 0 s
  obtain ⟨hle, hls, _⟩ := threshold_loop_oracle cfg u o₁ o₂
    (cfg.total_limit / cfg.interval + 1)
    (send_daily_report cfg tick o₁ 0 s).next_idx
    (send_daily_report cfg tick o₂ 0 s).next_idx
    (send_daily_report cfg tick o₁ 0 s).state
  constructor
  · rw [check_traffic_events, check_traffic_events, hde, hle, hds]
  · rw [check_traffic_state, check_traffic_state, hls, hds]

theorem run_ticks_crit_true (cfg : Config) :
    ∀ (ticks : List (Tick × ℚ × (ℕ → Bool))) (s : MonitorState),
      s.critical_notification_sent = true →
      critical_count (run_ticks cfg ticks s).1 = 0 ∧
      (run_ticks cfg ticks s).2.critical_notification_sent = true := by
  intro ticks
  induction ticks with
  | nil => intro s hs; exact ⟨rfl, hs⟩
  | cons head rest ih =>
    obtain ⟨t, u, o⟩ := head
    intro s hs
    have hcnt : critical_count (check_traffic cfg t u o s).events = 0 := by
      rw [check_traffic_critical_count, hs]
      simp
    have hflag : (check_traffic cfg t u o s).state.critical_notification_sent
        = true := by
      rw [check_traffic_crit_flag, hs]
      rfl
    obtain ⟨ih1, ih2⟩ := ih (check_traffic cfg t u o s).state hflag
    refine ⟨?_, ?_⟩
    · simp only [run_ticks, critical_count_append, hcnt, ih1]
    · simpa [run_ticks] using ih2

theorem run_ticks_crit_le_one (cfg : Config) :
    ∀ (ticks : List (Tick × ℚ × (ℕ → Bool))) (s : MonitorState),
      s.critical_notification_sent = false →
      critical_count (run_ticks cfg ticks s).1 ≤ 1 := by
  intro ticks
  induction ticks with
  | nil => intro s _; simp [run_ticks, critical_count]
  | cons head rest ih =>
    obtain ⟨t, u, o⟩ := head
    intro s hs
    cases hcrit : is_critical cfg u
    · have hcnt : critical_count (check_traffic cfg t u o s).events = 0 := by
        rw [check_traffic_critical_count, hcrit]
        simp
      have hflag : (check_traffic cfg t u o s).state.critical_notification_sent
          = false := by
        rw [check_traffic_crit_flag, hs, hcrit]
        rfl
      have := ih (check_traffic cfg t u o s).state hflag
      simpa [run_ticks, critical_count_append, hcnt] using this
    · have hcnt : critical_count (check_traffic cfg t u o s).events = 1 := by
        rw [check_traffic_critical_count, hcrit, hs]
        rfl
      have hflag : (check_traffic cfg t u o s).state.critical_notification_sent
          = true := by
        rw [check_traffic_crit_flag, hs, hcrit]
        rfl
      have := (run_ticks_crit_true cfg rest
        (check_traffic cfg t u o s).state hflag).1
      simp [run_ticks, critical_count_append, hcnt, this]

/-! ### Claim theorems -/

/-- Claim C1: with a positive configuration, one `check_traffic` threshold pass
emits `ThresholdCrossed` events for exactly the candidate marks
`i * interval`, `1 ≤ i ≤ total_limit / interval`, that are at most the usage
and not in the prior notified set, in ascending order; the resulting state
records exactly the prior set plus the emitted marks; and at any loop prefix
(arbitrary fuel, modelling an interrupted run) every already-emitted mark is
already recorded in the state, so a crash mid-loop cannot re-emit it. -/
theorem threshold_pass_emits_due_marks (cfg : Config) (tick : Tick) (u : ℚ)
    (o : ℕ → Bool) (s : MonitorState) (x y fuel idx : ℕ)
    (_hiv : 0 < cfg.interval) (_htl : 0 < cfg.total_limit) :
    (check_traffic cfg tick u o s).events.filterMap threshold_of =
        due_marks cfg s.notified_thresholds u ∧
    (due_marks cfg s.notified_thresholds u).Pairwise (· < ·) ∧
    (x ∈ (check_traffic cfg tick u o s).state.notified_thresholds ↔
        x ∈ s.notified_thresholds ∨ x ∈ due_marks cfg s.notified_thresholds u) ∧
    (y ∈ (threshold_loop cfg u o fuel idx s).emitted →
        y ∈ (threshold_loop cfg u o fuel idx s).state.notified_thresholds) :=
  ⟨check_traffic_threshold_events cfg tick u o s,
   due_marks_pairwise cfg _ u,
   check_traffic_notified_iff cfg tick u o s x,
   threshold_loop_emitted_recorded cfg u o fuel idx s y⟩

theorem threshold_pass_emits_due_marks_witness :
    0 < (⟨300, 100, 90, false, 8⟩ : Config).interval ∧
    0 < (⟨300, 100, 90, false, 8⟩ : Config).total_limit ∧
    ((check_traffic ⟨300, 100, 90, false, 8⟩ ⟨"2025-04-15", 3⟩ 260 (fun _ => true)
        ⟨"2025-04", [100], false, none⟩).events.filterMap threshold_of =
        due_marks ⟨300, 100, 90, false, 8⟩ [100] 260 ∧
      (due_marks ⟨300, 100, 90, false, 8⟩ [100] 260).Pairwise (· < ·) ∧
      (200 ∈ (check_traffic ⟨300, 100, 90, false, 8⟩ ⟨"2025-04-15", 3⟩ 260
          (fun _ => true)
          ⟨"2025-04", [100], false, none⟩).state.notified_thresholds ↔
        200 ∈ [100] ∨ 200 ∈ due_marks ⟨300, 100, 90, false, 8⟩ [100] 260) ∧
      (200 ∈ (threshold_loop ⟨300, 100, 90, false, 8⟩ 260 (fun _ => true) 4 0
          ⟨"2025-04", [100], false, none⟩).emitted →
        200 ∈ (threshold_loop ⟨300, 100, 90, false, 8⟩ 260 (fun _ => true) 4 0
          ⟨"2025-04", [100], false, none⟩).state.notified_thresholds)) :=
  ⟨by decide, by decide,
   threshold_pass_emits_due_marks ⟨300, 100, 90, false, 8⟩ ⟨"2025-04-15", 3⟩ 260
     (fun _ => true) ⟨"2025-04", [100], false, none⟩ 200 200 4 0
     (by decide) (by decide)⟩

/-- Claim C2 (code bug): `TrafficMonitor.__init__` performs no validation, so a
configuration with `interval = 0`, a negative interval, or a non-positive
total limit is accepted at construction time; the failure surfaces only at
evaluation time, where `_should_notify` raises `ZeroDivisionError` for
`interval = 0` (caught and logged by `check_traffic`, skipping the tick) and
silently yields no candidate marks for negative values. -/
theorem init_accepts_nonpositive_config :
    traffic_monitor_init ⟨2000, 0, 90⟩ =
      { total_limit := 2000, interval := 0, critical_percentage := 90,
        critical_threshold := (2000 * 90 : ℚ) / 100 } ∧
    should_notify_int 2000 0 [] 500 = .error .zeroDivisionError ∧
    should_notify_int 2000 (-100) [] 500 = .ok none ∧
    should_notify_int (-2000) 100 [] 500 = .ok none :=
  ⟨rfl, rfl, rfl, rfl⟩

/-- Claim C3 (counterexample): an evaluation tick run on a state whose stored
month differs from the current calendar month leaves the stale record in
place — it is not replaced by the fresh default.  The month check of
`StateManager._validate_state` runs only when the state is loaded, not on each
evaluation. -/
theorem evaluation_does_not_reset_stale_month :
    (check_traffic ⟨2000, 100, 90, true, 8⟩ ⟨"2025-04-15", 3⟩ 50 (fun _ => true)
        ⟨"2025-03", [100], false, none⟩).state =
      ⟨"2025-03", [100], false, none⟩ ∧
    (⟨"2025-03", [100], false, none⟩ : MonitorState).current_month ≠ "2025-04" ∧
    (⟨"2025-03", [100], false, none⟩ : MonitorState) ≠
      create_default_state "2025-04" :=
  ⟨by with_unfolding_all decide, by decide, by decide⟩

/-- Claim C3 (amended): the month-rollover reset happens when stored state is
validated at load time: `_validate_state` replaces a record whose month
differs from the current month by the fresh default and leaves a record with
the matching month unchanged; evaluation itself performs no month check — it
never removes notified thresholds and never changes the stored month, so the
load-time rollover reset is the only transition of the modelled monitor that
removes elements from `notified_thresholds`. -/
theorem month_rollover_resets_on_load (m : String) (s : MonitorState)
    (cfg : Config) (tick : Tick) (u : ℚ) (o : ℕ → Bool) (x : ℕ)
    (hm : s.current_month ≠ m) (hx : x ∈ s.notified_thresholds) :
    validate_state m s = create_default_state m ∧
    validate_state s.current_month s = s ∧
    x ∈ (check_traffic cfg tick u o s).state.notified_thresholds ∧
    (check_traffic cfg tick u o s).state.current_month = s.current_month :=
  ⟨by simp [validate_state, hm],
   by simp [validate_state],
   (check_traffic_notified_iff cfg tick u o s x).mpr (Or.inl hx),
   check_traffic_month cfg tick u o s⟩

theorem month_rollover_resets_on_load_witness :
    (⟨"2025-03", [100], false, none⟩ : MonitorState).current_month ≠ "2025-04" ∧
    100 ∈ (⟨"2025-03", [100], false, none⟩ : MonitorState).notified_thresholds ∧
    (validate_state "2025-04" ⟨"2025-03", [100], false, none⟩ =
        create_default_state "2025-04" ∧
      validate_state
          (⟨"2025-03", [100], false, none⟩ : MonitorState).current_month
          ⟨"2025-03", [100], false, none⟩ =
        ⟨"2025-03", [100], false, none⟩ ∧
      100 ∈ (check_traffic ⟨2000, 100, 90, true, 8⟩ ⟨"2025-04-15", 3⟩ 50
          (fun _ => true)
          ⟨"2025-03", [100], false, none⟩).state.notified_thresholds ∧
      (check_traffic ⟨2000, 100, 90, true, 8⟩ ⟨"2025-04-15", 3⟩ 50 (fun _ => true)
          ⟨"2025-03", [100], false, none⟩).state.current_month =
        (⟨"2025-03", [100], false, none⟩ : MonitorState).current_month) :=
  ⟨by decide, by decide,
   month_rollover_resets_on_load "2025-04" ⟨"2025-03", [100], false, none⟩
     ⟨2000, 100, 90, true, 8⟩ ⟨"2025-04-15", 3⟩ 50 (fun _ => true) 100
     (by decide) (by decide)⟩

/-- Claim C4: within one month of execution (the flag starts false and no
rollover occurs) at most one `CriticalReached` event is emitted across any
sequence of ticks; a single tick emits one exactly when the usage reaches the
critical threshold and the flag is unset, the flag is set by the firing tick
and never reset by evaluation, and the critical check does not depend on the
notified-thresholds set, so threshold and critical events can share a tick. -/
theorem critical_fires_once_per_month (cfg : Config)
    (ticks : List (Tick × ℚ × (ℕ → Bool))) (tick : Tick) (u : ℚ) (o : ℕ → Bool)
    (n₁ n₂ : List ℕ) (s : MonitorState)
    (hs : s.critical_notification_sent = false) :
    critical_count (run_ticks cfg ticks s).1 ≤ 1 ∧
    critical_count (check_traffic cfg tick u o s).events =
        (if is_critical cfg u then 1 else 0) ∧
    critical_count (check_traffic cfg tick u o
        { s with critical_notification_sent := true }).events = 0 ∧
    (check_traffic cfg tick u o s).state.critical_notification_sent =
        is_critical cfg u ∧
    (check_traffic cfg tick u o
        { s with critical_notification_sent := true
          }).state.critical_notification_sent = true ∧
    critical_count (check_traffic cfg tick u o
        { s with notified_thresholds := n₁ }).events =
      critical_count (check_traffic cfg tick u o
        { s with notified_thresholds := n₂ }).events := by
  refine ⟨run_ticks_crit_le_one cfg ticks s hs, ?_, ?_, ?_, ?_, ?_⟩
  · simp [check_traffic_critical_count, hs]
  · simp [check_traffic_critical_count]
  · simp [check_traffic_crit_flag, hs]
  · simp [check_traffic_crit_flag]
  · rw [check_traffic_critical_count, check_traffic_critical_count]

theorem critical_fires_once_per_month_witness :
    (create_default_state "2025-04").critical_notification_sent = false ∧
    (critical_count (run_ticks ⟨10, 5, 90, false, 8⟩
        [(⟨"2025-04-15", 3⟩, (9 : ℚ), fun _ => true),
         (⟨"2025-04-15", 3⟩, (9 : ℚ), fun _ => true)]
        (create_default_state "2025-04")).1 ≤ 1 ∧
      critical_count (check_traffic ⟨10, 5, 90, false, 8⟩ ⟨"2025-04-15", 3⟩ 9
          (fun _ => true) (create_default_state "2025-04")).events =
        (if is_critical ⟨10, 5, 90, false, 8⟩ 9 then 1 else 0) ∧
      critical_count (check_traffic ⟨10, 5, 90, false, 8⟩ ⟨"2025-04-15", 3⟩ 9
          (fun _ => true)
          { create_default_state "2025-04" with
            critical_notification_sent := true }).events = 0 ∧
      (check_traffic ⟨10, 5, 90, false, 8⟩ ⟨"2025-04-15", 3⟩ 9 (fun _ => true)
          (create_default_state "2025-04")).state.critical_notification_sent =
        is_critical ⟨10, 5, 90, false, 8⟩ 9 ∧
      (check_traffic ⟨10, 5, 90, false, 8⟩ ⟨"2025-04-15", 3⟩ 9 (fun _ => true)
          { create_default_state "2025-04" with
            critical_notification_sent := true
            }).state.critical_notification_sent = true ∧
      critical_count (check_traffic ⟨10, 5, 90, false, 8⟩ ⟨"2025-04-15", 3⟩ 9
          (fun _ => true)
          { create_default_state "2025-04" with
            notified_thresholds := [5] }).events =
        critical_count (check_traffic ⟨10, 5, 90, false, 8⟩ ⟨"2025-04-15", 3⟩ 9
          (fun _ => true)
          { create_default_state "2025-04" with
            notified_thresholds := [] }).events) :=
  ⟨rfl,
   critical_fires_once_per_month ⟨10, 5, 90, false, 8⟩
     [(⟨"2025-04-15", 3⟩, (9 : ℚ), fun _ => true),
      (⟨"2025-04-15", 3⟩, (9 : ℚ), fun _ => true)]
     ⟨"2025-04-15", 3⟩ 9 (fun _ => true) [5] []
     (create_default_state "2025-04") rfl⟩

/-- Claim C5: evaluation is idempotent on state — for every usage,
configuration and state, re-running `check_traffic` with the same usage on the
state produced by a first run emits zero new `ThresholdCrossed` events and
zero new `CriticalReached` events. -/
theorem evaluate_idempotent (cfg : Config) (tick₁ tick₂ : Tick) (u : ℚ)
    (o₁ o₂ : ℕ → Bool) (s : MonitorState) :
    threshold_count (check_traffic cfg tick₂ u o₂
        (check_traffic cfg tick₁ u o₁ s).state).events = 0 ∧
    critical_count (check_traffic cfg tick₂ u o₂
        (check_traffic cfg tick₁ u o₁ s).state).events = 0 := by
  constructor
  · unfold threshold_count
    rw [check_traffic_threshold_events]
    have hnil : due_marks cfg
        (check_traffic cfg tick₁ u o₁ s).state.notified_thresholds u = [] := by
      unfold due_marks
      refine List.filter_eq_nil_iff.mpr ?_
      intro t ht
      by_cases htu : (t : ℚ) ≤ u
      · have htmem : t ∈ (check_traffic cfg tick₁ u o₁ s).state.notified_thresholds := by
          rw [check_traffic_notified_iff]
          by_cases htn : t ∈ s.notified_thresholds
          · exact Or.inl htn
          · exact Or.inr ((mem_due_marks cfg _ u t).mpr ⟨ht, htu, htn⟩)
        simp [htu, htmem]
      · simp [htu]
    rw [hnil]
    rfl
  · rw [check_traffic_critical_count, check_traffic_crit_flag]
    cases hcrit : is_critical cfg u <;>
      simp [hcrit]

/-- Claim C6: the persisted state of a tick (and its emitted events) are
independent of the notifier results — two runs whose `notify` calls return
arbitrarily different booleans produce identical state and events; only the
call log differs. -/
theorem state_independent_of_notifier_results (cfg : Config) (tick : Tick)
    (u : ℚ) (o₁ o₂ : ℕ → Bool) (s : MonitorState) :
    (check_traffic cfg tick u o₁ s).state = (check_traffic cfg tick u o₂ s).state ∧
    (check_traffic cfg tick u o₁ s).events =
      (check_traffic cfg tick u o₂ s).events :=
  ⟨(check_traffic_oracle cfg tick u o₁ o₂ s).2,
   (check_traffic_oracle cfg tick u o₁ o₂ s).1⟩

/-- Claim C7: for a non-empty notifier list, `MultiNotifier.notify` invokes
every notifier exactly once in insertion order (the result list is the
element-wise outcome of the notifier list, exceptions recorded as failures and
never propagated), and returns true exactly when at least one notifier
returned true. -/
theorem multi_notify_spec (ns : List NotifyOutcome) (hne : ns ≠ []) :
    (multi_notify ns).2 = ns.map outcome_result ∧
    (multi_notify ns).2.length = ns.length ∧
    ((multi_notify ns).1 = true ↔ ∃ n ∈ ns, n = NotifyOutcome.ok true) := by
  have hcollect : ∀ l : List NotifyOutcome,
      collect_results l = l.map outcome_result := by
    intro l
    induction l with
    | nil => rfl
    | cons a t ih => simp [collect_results, ih]
  have hne' : ns.isEmpty = false := by
    cases ns with
    | nil => exact absurd rfl hne
    | cons a t => rfl
  refine ⟨?_, ?_, ?_⟩
  · simp [multi_notify, hne', hcollect]
  · simp [multi_notify, hne', hcollect]
  · simp only [multi_notify, hne', Bool.false_eq_true, if_false, hcollect]
    constructor
    · intro h
      obtain ⟨b, hb, hid⟩ := List.any_eq_true.mp h
      obtain ⟨n, hn, rfl⟩ := List.mem_map.mp hb
      cases n with
      | ok b' =>
        cases b' with
        | false => simp [outcome_result] at hid
        | true => exact ⟨_, hn, rfl⟩
      | exn => simp [outcome_result] at hid
    · rintro ⟨n, hn, rfl⟩
      exact List.any_eq_true.mpr
        ⟨true, List.mem_map.mpr ⟨NotifyOutcome.ok true, hn, rfl⟩, rfl⟩

theorem multi_notify_spec_witness :
    ([NotifyOutcome.exn, NotifyOutcome.ok false, NotifyOutcome.ok true] ≠
      ([] : List NotifyOutcome)) ∧
    ((multi_notify
        [NotifyOutcome.exn, NotifyOutcome.ok false, NotifyOutcome.ok true]).2 =
      [NotifyOutcome.exn, NotifyOutcome.ok false,
        NotifyOutcome.ok true].map outcome_result ∧
    (multi_notify
        [NotifyOutcome.exn, NotifyOutcome.ok false, NotifyOutcome.ok true]).2.length =
      [NotifyOutcome.exn, NotifyOutcome.ok false, NotifyOutcome.ok true].length ∧
    ((multi_notify
        [NotifyOutcome.exn, NotifyOutcome.ok false, NotifyOutcome.ok true]).1 =
        true ↔
      ∃ n ∈ [NotifyOutcome.exn, NotifyOutcome.ok false, NotifyOutcome.ok true],
        n = NotifyOutcome.ok true)) :=
  ⟨by decide,
   multi_notify_spec [NotifyOutcome.exn, NotifyOutcome.ok false,
     NotifyOutcome.ok true] (by decide)⟩

/-- Claim C8: the daily report is dispatched on a tick exactly when reporting
is enabled, the current hour equals the configured report hour, and today
differs from the recorded last report date; dispatching records today's date;
the check runs on every tick (the daily events of `check_traffic` are exactly
those of `send_daily_report`); concretely, two ticks in hour 8 of the same day
produce one `DailyReport` and a tick in hour 8 the next day a second. -/
theorem daily_report_once_per_day (cfg : Config) (tick : Tick) (u : ℚ)
    (o : ℕ → Bool) (idx : ℕ) (s : MonitorState) :
    ((send_daily_report cfg tick o idx s).events =
      if cfg.enable_daily_report = true ∧
          s.last_daily_report_date ≠ some tick.today ∧
          tick.hour = cfg.daily_report_hour
      then [Event.dailyReport tick.today] else []) ∧
    ((send_daily_report cfg tick o idx s).state.last_daily_report_date =
      if cfg.enable_daily_report = true ∧
          s.last_daily_report_date ≠ some tick.today ∧
          tick.hour = cfg.daily_report_hour
      then some tick.today else s.last_daily_report_date) ∧
    ((check_traffic cfg tick u o s).events.filter is_daily_event =
      (send_daily_report cfg tick o 0 s).events) ∧
    daily_count (run_ticks ⟨2000, 100, 90, true, 8⟩
      [(⟨"2025-04-15", 8⟩, 50, fun _ => true),
       (⟨"2025-04-15", 8⟩, 60, fun _ => true)]
      (create_default_state "2025-04")).1 = 1 ∧
    daily_count (run_ticks ⟨2000, 100, 90, true, 8⟩
      [(⟨"2025-04-15", 8⟩, 50, fun _ => true),
       (⟨"2025-04-15", 8⟩, 60, fun _ => true),
       (⟨"2025-04-16", 8⟩, 70, fun _ => true)]
      (create_default_state "2025-04")).1 = 2 := by
  refine ⟨send_daily_events cfg tick o idx s, ?_,
    check_traffic_daily_filter cfg tick u o s,
    by with_unfolding_all decide, by with_unfolding_all decide⟩
  rw [send_daily_state]
  split <;> rfl

/-- Claim C9: the report generator computes the percentage of limit used as
`usage / total_limit * 100`, the daily average as `usage / day`, and the
month-end projection as `usage + (usage / day) * remaining_days`; these
numbers are presentation-only — dispatching the report changes neither
`notified_thresholds` nor `critical_notification_sent`. -/
theorem report_numbers_presentation_only (u tl : ℚ) (day rdays : ℕ)
    (cfg : Config) (tick : Tick) (o : ℕ → Bool) (idx : ℕ) (s : MonitorState)
    (_hu : 0 ≤ u) (_htl : 0 < tl) (_hd : 1 ≤ day) :
    (report_numbers u tl day rdays).percentage = u / tl * 100 ∧
    (report_numbers u tl day rdays).daily_average = u / (day : ℚ) ∧
    (report_numbers u tl day rdays).estimated_end_of_month =
        u + u / (day : ℚ) * (rdays : ℚ) ∧
    (send_daily_report cfg tick o idx s).state.notified_thresholds =
        s.notified_thresholds ∧
    (send_daily_report cfg tick o idx s).state.critical_notification_sent =
        s.critical_notification_sent :=
  ⟨rfl, rfl, rfl, send_daily_notified cfg tick o idx s,
   send_daily_critical cfg tick o idx s⟩

theorem report_numbers_presentation_only_witness :
    (0 : ℚ) ≤ 300 ∧ (0 : ℚ) < 1000 ∧ (1 : ℕ) ≤ 15 ∧
    ((report_numbers 300 1000 15 15).percentage = 300 / 1000 * 100 ∧
    (report_numbers 300 1000 15 15).daily_average = 300 / ((15 : ℕ) : ℚ) ∧
    (report_numbers 300 1000 15 15).estimated_end_of_month =
        300 + 300 / ((15 : ℕ) : ℚ) * ((15 : ℕ) : ℚ) ∧
    (send_daily_report ⟨2000, 100, 90, true, 8⟩ ⟨"2025-04-15", 8⟩ (fun _ => true)
        0 (create_default_state "2025-04")).state.notified_thresholds =
      (create_default_state "2025-04").notified_thresholds ∧
    (send_daily_report ⟨2000, 100, 90, true, 8⟩ ⟨"2025-04-15", 8⟩ (fun _ => true)
        0 (create_default_state "2025-04")).state.critical_notification_sent =
      (create_default_state "2025-04").critical_notification_sent) :=
  ⟨by decide, by decide, by decide,
   report_numbers_presentation_only 300 1000 15 15 ⟨2000, 100, 90, true, 8⟩
     ⟨"2025-04-15", 8⟩ (fun _ => true) 0 (create_default_state "2025-04")
     (by decide) (by decide) (by decide)⟩

/-- Claim C10: with a positive configuration the threshold `while` loop always
reaches its `break` when given fuel beyond `total_limit / interval` — each
iteration records a previously-unnotified mark and the candidate marks are
finite — and the number of notifying iterations in one pass is at most
`total_limit / interval`. -/
theorem threshold_loop_terminates (cfg : Config) (u : ℚ) (o : ℕ → Bool)
    (idx fuel : ℕ) (s : MonitorState)
    (_hiv : 0 < cfg.interval) (_htl : 0 < cfg.total_limit)
    (hfuel : cfg.total_limit / cfg.interval < fuel) :
    (threshold_loop cfg u o fuel idx s).completed = true ∧
    (threshold_loop cfg u o fuel idx s).emitted.length ≤
      cfg.total_limit / cfg.interval := by
  have hlen : (due_marks cfg s.notified_thresholds u).length < fuel :=
    lt_of_le_of_lt (due_marks_length_le cfg _ u) hfuel
  obtain ⟨h1, h2, _⟩ := threshold_loop_spec cfg u o fuel idx s hlen
  refine ⟨h2, ?_⟩
  rw [h1]
  exact due_marks_length_le cfg _ u

theorem threshold_loop_terminates_witness :
    0 < (⟨10, 5, 90, false, 8⟩ : Config).interval ∧
    0 < (⟨10, 5, 90, false, 8⟩ : Config).total_limit ∧
    (⟨10, 5, 90, false, 8⟩ : Config).total_limit /
        (⟨10, 5, 90, false, 8⟩ : Config).interval < 3 ∧
    ((threshold_loop ⟨10, 5, 90, false, 8⟩ 7 (fun _ => true) 3 0
        (create_default_state "2025-04")).completed = true ∧
      (threshold_loop ⟨10, 5, 90, false, 8⟩ 7 (fun _ => true) 3 0
          (create_default_state "2025-04")).emitted.length ≤
        (⟨10, 5, 90, false, 8⟩ : Config).total_limit /
          (⟨10, 5, 90, false, 8⟩ : Config).interval) :=
  ⟨by decide, by decide, by decide,
   threshold_loop_terminates ⟨10, 5, 90, false, 8⟩ 7 (fun _ => true) 0 3
     (create_default_state "2025-04") (by decide) (by decide) (by decide)⟩

end TrafficMonitor
